import Mathlib

/-!
Verification of the OAuth2 provider layer in `flask_oauthlib/provider.py`.

The Python source is shallowly embedded: the pluggable store callbacks
(`clientgetter`, `tokengetter`, `grantgetter`) become explicit function
parameters returning `Option`; the mutable per-request object onto which the
validator attaches `client`, `user` and `scopes` becomes an explicit
`OAuthRequest` value threaded through and returned; `datetime.utcnow()`
becomes an explicit `now : Int` parameter; Python code paths that raise an
`AttributeError` (attribute access on `None`) are embedded as `Except.error`.
Scope collections are Python sets built from lists, so all comparisons are
membership-based (subset / set equality), never positional.
-/

/-- A token record as described by the `tokengetter` contract in the source:
`scopes` (a list of scope strings), `expires` (a timestamp, embedded as `Int`
seconds), and `user` (embedded as an opaque string identifier). -/
structure Token where
  scopes : List String
  expires : Int
  user : String
deriving DecidableEq

/-- A client record as described by the `clientgetter` contract in the source.
The optional `confidential` field embeds Python's
`hasattr(client, 'confidential')` customization hook read by
`authenticate_client_id`: `none` means the attribute is absent. -/
structure Client where
  client_id : String
  client_secret : String
  client_type : String
  redirect_uris : List String
  default_redirect_uri : String
  default_scopes : List String
  confidential : Option String
deriving DecidableEq

/-- An authorization-grant record: `code`, owning `client_id`, stored
`redirect_uri`, `scopes`, `user_id`, and absolute expiry `expires_at`. -/
structure Grant where
  code : String
  client_id : String
  redirect_uri : String
  scopes : List String
  user_id : String
  expires_at : Int
deriving DecidableEq

/-- The mutable per-request object the oauthlib framework passes to every
validator callback. The source attaches `client`, `user` and `scopes` onto it
by duck-typed attribute assignment; unassigned attributes are embedded as
`none`. -/
structure OAuthRequest where
  client : Option Client := none
  user : Option String := none
  scopes : Option (List String) := none
deriving DecidableEq

/-- Python `set(ys).issuperset(set(xs))`, i.e. every element of `xs` is a
member of `ys`. -/
def list_subset (xs ys : List String) : Bool :=
  xs.all (fun s => decide (s ∈ ys))

/-- Python `set(xs) == set(ys)`: mutual membership. -/
def same_set (xs ys : List String) : Bool :=
  list_subset xs ys && list_subset ys xs

/-- Source `OAuthRequestValidator.validate_bearer_token` (provider.py lines
294-321): look the token up by access token; fail if absent; fail if
`utcnow() > tok.expires`; fail if the token's scope set is not a superset of
the required `scopes`; otherwise attach `tok.user` and the required `scopes`
onto the request and succeed. The returned pair is (result, request after the
call). -/
def validate_bearer_token (tokengetter : String → Option Token) (now : Int)
    (token : String) (scopes : List String) (request : OAuthRequest) :
    Bool × OAuthRequest :=
  match tokengetter token with
  | none => (false, request)
  | some tok =>
    if now > tok.expires then (false, request)
    else if !list_subset scopes tok.scopes then (false, request)
    else (true, { request with user := some tok.user, scopes := some scopes })

/-- Source `OAuthRequestValidator.confirm_scopes` (lines 267-269): look the
token up by refresh token and compare scope sets.  The source performs
`set(tok.scopes)` with no absence check, so a miss (`tok = None`) raises
`AttributeError`; that exceptional path is embedded as `Except.error`. -/
def confirm_scopes (tokengetter : String → Option Token)
    (refresh_token : String) (scopes : List String) : Except String Bool :=
  match tokengetter refresh_token with
  | none => Except.error "AttributeError"
  | some tok => Except.ok (same_set tok.scopes scopes)

/-- Source `OAuthRequestValidator.validate_redirect_uri` (lines 340-344): the
chained assignment `request.client = request.client = self._clientgetter(client_id)`
overwrites `request.client` with the getter's result unconditionally, then
evaluates `redirect_uri in request.client.redirect_uris`.  When the getter
returns `None` that attribute access raises `AttributeError`, embedded as
`Except.error`. -/
def validate_redirect_uri (clientgetter : String → Option Client)
    (client_id redirect_uri : String) (request : OAuthRequest) :
    Except String (Bool × OAuthRequest) :=
  match clientgetter client_id with
  | none => Except.error "AttributeError"
  | some c =>
    Except.ok (decide (redirect_uri ∈ c.redirect_uris),
               { request with client := some c })

/-- The marker value the source compares `client_type` against in
`authenticate_client_id` (lines 262-264): the string `'confidential'` unless
the client object carries its own `confidential` attribute, which then
replaces the marker. -/
def confidentialType (client : Client) : String :=
  client.confidential.getD "confidential"

/-- Source `OAuthRequestValidator.authenticate_client_id` (lines 247-265):
resolve the client from the request context or, failing that, the client
getter; fail on absence; attach the client onto the request; succeed exactly
when `client.client_type != confidential`. -/
def authenticate_client_id (clientgetter : String → Option Client)
    (client_id : String) (request : OAuthRequest) : Bool × OAuthRequest :=
  match request.client.orElse (fun _ => clientgetter client_id) with
  | none => (false, request)
  | some client =>
    (client.client_type != confidentialType client,
     { request with client := some client })

/-- A concrete token store used by the closed witness statements:
access/refresh token `"tk"` maps to a token with scopes `{a, b}`, expiry 10
and user `"u"`; everything else is absent. -/
def tokEx : Token := { scopes := ["a", "b"], expires := 10, user := "u" }

/-- A concrete token getter for witnesses. -/
def getterEx : String → Option Token :=
  fun s => if s = "tk" then some tokEx else none

/-- A fresh request object with nothing attached. -/
def reqEx : OAuthRequest := {}

/-- An OAuth2 protocol error as raised by the external oauthlib engine; only
its name matters to the handler embedding. -/
structure OAuthError where
  name : String
deriving DecidableEq

/-- An inbound authorization request as seen by `authorize_handler`: the
client-supplied `redirect_uri` query parameter (read at provider.py line 160)
and the remaining raw request data, abstracted as a blob. -/
structure AuthRequest where
  redirect_uri : Option String
  raw : String
deriving DecidableEq

/-- The outcome of `server.validate_authorization_request` (external oauthlib
engine, called at lines 166-167): either resolved scopes and credentials, or
a fatal client error (`errors.FatalClientError`). -/
inductive ValidationOutcome where
  | ok (scopes : List String) (credentials : List (String × String))
  | fatalError (e : OAuthError)
deriving DecidableEq

/-- The response produced by the decorated authorize view: either the wrapped
application function's response body, or an HTTP redirect to a target URI. -/
inductive AuthorizeResponse where
  | handled (body : String)
  | redirectTo (target : String)
deriving DecidableEq

/-- Source `OAuth.authorize_handler` (lines 156-174): run the engine's
validation; on success call the wrapped function `f` with the resolved scopes
and credentials; on `FatalClientError` redirect to `e.in_uri(self.error_uri)`.
The engine (`validate`) and oauthlib's `in_uri` (which attaches the error's
parameters to a base URI) are external collaborators, passed as parameters. -/
def authorize_handler (validate : AuthRequest → ValidationOutcome)
    (in_uri : OAuthError → String → String) (errorPage : String)
    (f : List String → List (String × String) → String)
    (req : AuthRequest) : AuthorizeResponse :=
  match validate req with
  | ValidationOutcome.ok scopes credentials =>
      AuthorizeResponse.handled (f scopes credentials)
  | ValidationOutcome.fatalError e =>
      AuthorizeResponse.redirectTo (in_uri e errorPage)

/-- The two configuration entries read by `OAuth.error_uri`:
`OAUTH_PROVIDER_ERROR_URI` and `OAUTH_PROVIDER_ERROR_ENDPOINT`.  `none`
embeds an unset key (Python `config.get` returning `None`). -/
structure AppConfig where
  oauth_provider_error_uri : Option String
  oauth_provider_error_endpoint : Option String
deriving DecidableEq

/-- Python truthiness of an optional string: `None` and `''` are falsy. -/
def truthyStr : Option String → Bool
  | none => false
  | some s => decide (s ≠ "")

/-- Source `OAuth.error_uri` (lines 90-99): return `OAUTH_PROVIDER_ERROR_URI`
if truthy; else `url_for(OAUTH_PROVIDER_ERROR_ENDPOINT)` if that is truthy;
else the literal `'/errors'`.  Flask's `url_for` is external, passed as a
parameter. -/
def error_uri (url_for : String → String) (cfg : AppConfig) : String :=
  if truthyStr cfg.oauth_provider_error_uri then
    cfg.oauth_provider_error_uri.getD ""
  else if truthyStr cfg.oauth_provider_error_endpoint then
    url_for (cfg.oauth_provider_error_endpoint.getD "")
  else "/errors"

/-- Modelled from the spec: the source `OAuthRequestValidator.validate_code`
(lines 331-333) is an unimplemented stub (`# TODO` / `pass`), so its intended
behavior is taken from the spec: true iff a non-expired grant exists for
exactly this (client_id, code) pair and its stored redirect_uri equals the
supplied one; on success the grant store is left untouched (deletion happens
only later, in `invalidate_authorization_code`).  The grant store is the
`grantgetter` callback; the returned pair is (result, store after the call),
making the no-deletion frame condition expressible. -/
def validate_code (grantgetter : String → String → Option Grant) (now : Int)
    (client_id code redirect_uri : String) :
    Bool × (String → String → Option Grant) :=
  match grantgetter client_id code with
  | none => (false, grantgetter)
  | some g =>
    (decide (now < g.expires_at) && decide (g.redirect_uri = redirect_uri),
     grantgetter)

/-- The response of a protected-resource endpoint guarded by `require_oauth`:
either the handler's response carrying the exposed user and granted scopes,
or an RFC 6750 error response produced without invoking the handler. -/
inductive ResourceResult where
  | resource (user : String) (scopes : List String) (body : String)
  | unauthorized (error : String)
deriving DecidableEq

/-- Modelled from the spec: the source `OAuth.require_oauth` (lines 208-209)
is an unimplemented stub (`pass`), so the resource guard is taken from the
spec (§4.4): call `validate_bearer_token` with the required scopes and the
inbound bearer token; on success invoke the handler, exposing the token's
user and the granted scopes; on failure produce an RFC 6750 `invalid_token`
(token absent or expired) or `insufficient_scope` (scope subset check failed)
error without invoking the handler. -/
def require_oauth (tokengetter : String → Option Token) (now : Int)
    (required : List String) (token : String)
    (handler : String → List String → String) (request : OAuthRequest) :
    ResourceResult :=
  if (validate_bearer_token tokengetter now token required request).1 then
    match tokengetter token with
    | some tok => ResourceResult.resource tok.user required
        (handler tok.user required)
    | none => ResourceResult.unauthorized "invalid_token"
  else
    match tokengetter token with
    | none => ResourceResult.unauthorized "invalid_token"
    | some tok =>
      if now > tok.expires then ResourceResult.unauthorized "invalid_token"
      else ResourceResult.unauthorized "insufficient_scope"

/-- A concrete client store for witnesses: client `"c1"` is a public client
with one registered redirect URI; everything else is absent. -/
def clientGetterEx : String → Option Client :=
  fun s =>
    if s = "c1" then
      some { client_id := "c1", client_secret := "", client_type := "public",
             redirect_uris := ["https://app/cb"],
             default_redirect_uri := "https://app/cb",
             default_scopes := ["a"], confidential := none }
    else none

/-- A concrete grant store for witnesses: grant code `"XYZ"` for client
`"c1"` with redirect URI `"https://app/cb"`, expiring at time 10. -/
def grantGetterEx : String → String → Option Grant :=
  fun cid code =>
    if cid = "c1" && code = "XYZ" then
      some { code := "XYZ", client_id := "c1",
             redirect_uri := "https://app/cb", scopes := ["a"],
             user_id := "u", expires_at := 10 }
    else none

/-- Membership reading of `list_subset`. -/
theorem list_subset_iff (xs ys : List String) :
    list_subset xs ys = true ↔ ∀ s ∈ xs, s ∈ ys := by
  simp [list_subset]

/-- Claim C1: `validate_bearer_token` returns false exactly when the token
lookup is absent, or the current time is past the token's expiry, or the
required scopes are not a subset of the token's scopes; in all other cases it
returns true and binds the token's user and the required scopes into the
request-scoped context. -/
theorem validate_bearer_token_spec (g : String → Option Token) (now : Int)
    (token : String) (scopes : List String) (r : OAuthRequest) :
    ((validate_bearer_token g now token scopes r).1 = false ↔
      g token = none ∨
        ∃ tok, g token = some tok ∧
          (now > tok.expires ∨ ¬ ∀ s ∈ scopes, s ∈ tok.scopes)) ∧
    ((validate_bearer_token g now token scopes r).1 = true →
      ∃ tok, g token = some tok ∧
        (validate_bearer_token g now token scopes r).2.user = some tok.user ∧
        (validate_bearer_token g now token scopes r).2.scopes = some scopes) := by
  cases h : g token with
  | none => simp [validate_bearer_token, h]
  | some tok =>
    by_cases hexp : now > tok.expires
    · constructor
      · simp [validate_bearer_token, h, hexp]
      · intro htrue
        simp [validate_bearer_token, h, hexp] at htrue
    · by_cases hsub : list_subset scopes tok.scopes = true
      · constructor
        · simp only [validate_bearer_token, h, if_neg hexp, hsub,
            Bool.not_true, Bool.false_eq_true, if_false]
          simp only [Bool.true_eq_false, false_iff, not_or, not_exists,
            Option.some.injEq, not_and]
          refine ⟨by simp, fun tok' heq => ?_⟩
          subst heq
          push_neg
          exact ⟨not_lt.mp hexp, (list_subset_iff scopes tok.scopes).mp hsub⟩
        · intro _
          refine ⟨tok, rfl, ?_, ?_⟩ <;>
            simp [validate_bearer_token, h, if_neg hexp, hsub]
      · constructor
        · simp only [Bool.not_eq_true] at hsub
          simp [validate_bearer_token, h, if_neg hexp, hsub]
          right
          have hns : ¬ ∀ s ∈ scopes, s ∈ tok.scopes := by
            intro hall
            have hc := (list_subset_iff scopes tok.scopes).mpr hall
            simp [hsub] at hc
          push_neg at hns
          exact hns
        · intro htrue
          simp only [Bool.not_eq_true] at hsub
          simp [validate_bearer_token, h, if_neg hexp, hsub] at htrue

/-- Witness for C1: at the concrete store `getterEx`, time 5, token `"tk"`
and required scopes `{a}`, validation succeeds and binds user `"u"` and the
required scopes. -/
theorem validate_bearer_token_spec_witness :
    ∃ tok, getterEx "tk" = some tok ∧
      (validate_bearer_token getterEx 5 "tk" ["a"] reqEx).2.user = some tok.user ∧
      (validate_bearer_token getterEx 5 "tk" ["a"] reqEx).2.scopes = some ["a"] :=
  (validate_bearer_token_spec getterEx 5 "tk" ["a"] reqEx).2 (by decide)

/-- Claim C2, evaluated on the code: on a client-store miss
`validate_redirect_uri` does not return false — the attribute access
`None.redirect_uris` raises `AttributeError` — and on a refresh-token-store
miss `confirm_scopes` likewise raises `AttributeError` (`None.scopes`)
instead of returning false. -/
theorem store_miss_raises_attribute_error :
    validate_redirect_uri (fun _ => none) "c1" "https://app/cb" reqEx =
      Except.error "AttributeError" ∧
    confirm_scopes (fun _ => none) "rt" ["a"] =
      Except.error "AttributeError" :=
  ⟨rfl, rfl⟩

/-- Claim C3: for a refresh token with a stored record, `confirm_scopes`
returns true exactly when the requested scopes equal the stored scopes as
sets; in particular a request for a strict superset of the stored scopes
returns false. -/
theorem confirm_scopes_spec (g : String → Option Token) (rt : String)
    (ss : List String) (tok : Token) (h : g rt = some tok) :
    (confirm_scopes g rt ss = Except.ok true ↔
      ∀ s, s ∈ ss ↔ s ∈ tok.scopes) ∧
    ((∀ s ∈ tok.scopes, s ∈ ss) → (∃ s ∈ ss, s ∉ tok.scopes) →
      confirm_scopes g rt ss = Except.ok false) := by
  have hval : confirm_scopes g rt ss = Except.ok (same_set tok.scopes ss) := by
    simp [confirm_scopes, h]
  constructor
  · rw [hval]
    constructor
    · intro hok
      have hb : same_set tok.scopes ss = true := by simpa using hok
      have hparts := (Bool.and_eq_true _ _).mp hb
      intro s
      exact ⟨fun hs => (list_subset_iff ss tok.scopes).mp hparts.2 s hs,
             fun hs => (list_subset_iff tok.scopes ss).mp hparts.1 s hs⟩
    · intro hiff
      have h1 : list_subset tok.scopes ss = true :=
        (list_subset_iff _ _).mpr (fun s hs => (hiff s).mpr hs)
      have h2 : list_subset ss tok.scopes = true :=
        (list_subset_iff _ _).mpr (fun s hs => (hiff s).mp hs)
      simp [same_set, h1, h2]
  · rintro _ ⟨s, hs, hns⟩
    have h2 : list_subset ss tok.scopes = false := by
      cases hb : list_subset ss tok.scopes with
      | false => rfl
      | true => exact absurd ((list_subset_iff _ _).mp hb s hs) hns
    rw [hval]
    simp [same_set, h2]

/-- Witness for C3: the stored token `"tk"` carries scopes `{a, b}`; the
strict superset request `{a, b, c}` is refused. -/
theorem confirm_scopes_spec_witness :
    confirm_scopes getterEx "tk" ["a", "b", "c"] = Except.ok false :=
  (confirm_scopes_spec getterEx "tk" ["a", "b", "c"] tokEx (by decide)).2
    (by decide) (by decide)

/-- Claim C4 (modelled from the spec, since the source body is a TODO stub):
`validate_code` returns true exactly when a non-expired grant exists for this
(client_id, code) pair whose stored redirect_uri equals the supplied one, and
a call never deletes anything from the grant store. -/
theorem validate_code_spec (gg : String → String → Option Grant) (now : Int)
    (client_id code redirect_uri : String) :
    ((validate_code gg now client_id code redirect_uri).1 = true ↔
      ∃ g, gg client_id code = some g ∧ now < g.expires_at ∧
        g.redirect_uri = redirect_uri) ∧
    (validate_code gg now client_id code redirect_uri).2 = gg := by
  cases h : gg client_id code with
  | none => simp [validate_code, h]
  | some g => simp [validate_code, h]

/-- Claim C5: when validation of an authorization request fails with a fatal
client error, the authorize handler responds with a redirect whose target is
built from the configured generic error page; every request failing with the
same fatal error receives the identical response, so the target never depends
on the client-supplied redirect_uri. -/
theorem authorize_handler_fatal_spec
    (validate : AuthRequest → ValidationOutcome)
    (in_uri : OAuthError → String → String) (errorPage : String)
    (f : List String → List (String × String) → String)
    (req : AuthRequest) (e : OAuthError)
    (h : validate req = ValidationOutcome.fatalError e) :
    authorize_handler validate in_uri errorPage f req =
      AuthorizeResponse.redirectTo (in_uri e errorPage) ∧
    ∀ req', validate req' = ValidationOutcome.fatalError e →
      authorize_handler validate in_uri errorPage f req' =
        authorize_handler validate in_uri errorPage f req := by
  constructor
  · simp [authorize_handler, h]
  · intro req' h'
    simp [authorize_handler, h, h']

/-- Witness for C5: a request carrying the attacker-supplied redirect URI
`https://evil/cb` that fails fatally is answered by a redirect to the error
page, not to the supplied URI. -/
theorem authorize_handler_fatal_spec_witness :
    authorize_handler
        (fun _ => ValidationOutcome.fatalError (OAuthError.mk "invalid_request"))
        (fun e uri => uri ++ "?error=" ++ e.name) "/errors" (fun _ _ => "")
        (AuthRequest.mk (some "https://evil/cb") "") =
      AuthorizeResponse.redirectTo
        ((fun e uri => uri ++ "?error=" ++ e.name)
          (OAuthError.mk "invalid_request") "/errors") :=
  (authorize_handler_fatal_spec
    (fun _ => ValidationOutcome.fatalError (OAuthError.mk "invalid_request"))
    (fun e uri => uri ++ "?error=" ++ e.name) "/errors" (fun _ _ => "")
    (AuthRequest.mk (some "https://evil/cb") "")
    (OAuthError.mk "invalid_request") rfl).1

/-- Claim C6 (modelled from the spec, since the source body is a stub): the
resource guard decides through `validate_bearer_token`; when that check fails
it produces an RFC 6750 `invalid_token` or `insufficient_scope` error and
does not invoke the handler, and when it succeeds it invokes the handler with
the token's user and the granted (required) scopes. -/
theorem require_oauth_spec (g : String → Option Token) (now : Int)
    (required : List String) (token : String)
    (handler : String → List String → String) (r : OAuthRequest) :
    ((validate_bearer_token g now token required r).1 = false →
      require_oauth g now required token handler r =
          ResourceResult.unauthorized "invalid_token" ∨
        require_oauth g now required token handler r =
          ResourceResult.unauthorized "insufficient_scope") ∧
    ((validate_bearer_token g now token required r).1 = true →
      ∃ tok, g token = some tok ∧
        require_oauth g now required token handler r =
          ResourceResult.resource tok.user required
            (handler tok.user required)) := by
  constructor
  · intro hfail
    cases h : g token with
    | none => left; simp [require_oauth, hfail, h]
    | some tok =>
      by_cases hexp : now > tok.expires
      · left; simp [require_oauth, hfail, h, hexp]
      · right; simp [require_oauth, hfail, h, hexp]
  · intro hsucc
    cases h : g token with
    | none => simp [validate_bearer_token, h] at hsucc
    | some tok => exact ⟨tok, rfl, by simp [require_oauth, hsucc, h]⟩

/-- Witness for C6: with the concrete store, a valid bearer token reaches the
handler with the bound user and granted scopes. -/
theorem require_oauth_spec_witness :
    ∃ tok, getterEx "tk" = some tok ∧
      require_oauth getterEx 5 ["a"] "tk" (fun u _ => u) reqEx =
        ResourceResult.resource tok.user ["a"] ((fun u _ => u) tok.user ["a"]) :=
  (require_oauth_spec getterEx 5 ["a"] "tk" (fun u _ => u) reqEx).2 (by decide)

/-- Claim C7: on a fresh request, `authenticate_client_id` succeeds exactly
when the client lookup returns a client whose `client_type` differs from its
confidential marker, and on success the resolved client is bound into the
request-scoped context. -/
theorem authenticate_client_id_spec (g : String → Option Client)
    (client_id : String) (r : OAuthRequest) (hr : r.client = none) :
    ((authenticate_client_id g client_id r).1 = true ↔
      ∃ c, g client_id = some c ∧ c.client_type ≠ confidentialType c) ∧
    ((authenticate_client_id g client_id r).1 = true →
      (authenticate_client_id g client_id r).2.client = g client_id) := by
  cases h : g client_id with
  | none => simp [authenticate_client_id, hr, h, Option.orElse]
  | some c =>
    constructor
    · simp [authenticate_client_id, hr, h, Option.orElse, bne_iff_ne]
    · intro _
      simp [authenticate_client_id, hr, h, Option.orElse]

/-- Witness for C7: the public client `"c1"` authenticates and is bound into
the request context. -/
theorem authenticate_client_id_spec_witness :
    (authenticate_client_id clientGetterEx "c1" reqEx).2.client =
      clientGetterEx "c1" :=
  (authenticate_client_id_spec clientGetterEx "c1" reqEx rfl).2 (by decide)

/-- Claim C8: with the token store fixed, bearer-token validity is monotonic
in time: success at time `now` implies success at every earlier time
`now' < now`, and for the stored token record validation fails at every time
strictly after its expiry. -/
theorem validate_bearer_token_monotone (g : String → Option Token)
    (now now' : Int) (token : String) (scopes : List String)
    (r : OAuthRequest) :
    ((validate_bearer_token g now token scopes r).1 = true → now' < now →
      (validate_bearer_token g now' token scopes r).1 = true) ∧
    (∀ tok t'', g token = some tok → tok.expires < t'' →
      (validate_bearer_token g t'' token scopes r).1 = false) := by
  constructor
  · intro hsucc hlt
    cases h : g token with
    | none => simp [validate_bearer_token, h] at hsucc
    | some tok =>
      simp only [validate_bearer_token, h] at hsucc ⊢
      by_cases hexp : now > tok.expires
      · simp [hexp] at hsucc
      · by_cases hsub : list_subset scopes tok.scopes = true
        · have hexp' : ¬ now' > tok.expires := by omega
          simp [if_neg hexp', hsub]
        · simp only [Bool.not_eq_true] at hsub
          simp [if_neg hexp, hsub] at hsucc
  · intro tok t'' h hlt
    simp [validate_bearer_token, h, hlt]

/-- Witness for C8: the token expiring at 10 validates at time 3 (earlier
than the successful time 5) and fails at time 20 (after expiry). -/
theorem validate_bearer_token_monotone_witness :
    (validate_bearer_token getterEx 3 "tk" ["a"] reqEx).1 = true ∧
    (validate_bearer_token getterEx 20 "tk" ["a"] reqEx).1 = false :=
  ⟨(validate_bearer_token_monotone getterEx 5 3 "tk" ["a"] reqEx).1
      (by decide) (by decide),
   (validate_bearer_token_monotone getterEx 20 20 "tk" ["a"] reqEx).2
      tokEx 20 (by decide) (by decide)⟩

/-- Claim C9: whenever `validate_bearer_token` returns false, the
request-scoped context is left unchanged: the request object after the call
is exactly the request object before it. -/
theorem validate_bearer_token_frame (g : String → Option Token) (now : Int)
    (token : String) (scopes : List String) (r : OAuthRequest)
    (h : (validate_bearer_token g now token scopes r).1 = false) :
    (validate_bearer_token g now token scopes r).2 = r := by
  cases hg : g token with
  | none => simp [validate_bearer_token, hg]
  | some tok =>
    simp only [validate_bearer_token, hg] at h ⊢
    by_cases hexp : now > tok.expires
    · simp [hexp]
    · by_cases hsub : list_subset scopes tok.scopes = true
      · simp [if_neg hexp, hsub] at h
      · simp only [Bool.not_eq_true] at hsub
        simp [if_neg hexp, hsub]

/-- Witness for C9: at time 20 the stored token is expired, validation fails,
and the request object is returned unchanged. -/
theorem validate_bearer_token_frame_witness :
    (validate_bearer_token getterEx 20 "tk" ["a"] reqEx).2 = reqEx :=
  validate_bearer_token_frame getterEx 20 "tk" ["a"] reqEx (by decide)

/-- Claim C10, counterexample: with `OAUTH_PROVIDER_ERROR_URI` set (to the
empty string) and `OAUTH_PROVIDER_ERROR_ENDPOINT` set to `"ep"`, `error_uri`
returns the endpoint's URL rather than the set `OAUTH_PROVIDER_ERROR_URI`
value, so a set `OAUTH_PROVIDER_ERROR_URI` is not always returned unchanged. -/
theorem error_uri_counterexample :
    (AppConfig.mk (some "") (some "ep")).oauth_provider_error_uri = some "" ∧
    error_uri (fun e => "/u/" ++ e) (AppConfig.mk (some "") (some "ep")) =
      "/u/ep" ∧
    "/u/ep" ≠ "" :=
  ⟨rfl, by decide, by decide⟩

/-- Claim C10 as amended: when neither configuration entry is set to a
non-empty value, `error_uri` is the literal `'/errors'`; when
`OAUTH_PROVIDER_ERROR_URI` is set to a non-empty value, that value is
returned unchanged and takes priority over the endpoint setting. -/
theorem error_uri_amended_spec (url_for : String → String) (cfg : AppConfig) :
    (truthyStr cfg.oauth_provider_error_uri = false →
      truthyStr cfg.oauth_provider_error_endpoint = false →
      error_uri url_for cfg = "/errors") ∧
    (∀ s, cfg.oauth_provider_error_uri = some s → s ≠ "" →
      error_uri url_for cfg = s) := by
  constructor
  · intro h1 h2
    simp [error_uri, h1, h2]
  · intro s hs hne
    simp [error_uri, truthyStr, hs, hne]

/-- Witness for C10 (amended): an unset configuration yields `'/errors'`, and
a non-empty `OAUTH_PROVIDER_ERROR_URI` wins over a set endpoint. -/
theorem error_uri_amended_spec_witness :
    error_uri (fun e => "/u/" ++ e) (AppConfig.mk none none) = "/errors" ∧
    error_uri (fun e => "/u/" ++ e) (AppConfig.mk (some "/custom") (some "ep")) =
      "/custom" :=
  ⟨(error_uri_amended_spec (fun e => "/u/" ++ e) (AppConfig.mk none none)).1
      rfl rfl,
   (error_uri_amended_spec (fun e => "/u/" ++ e)
      (AppConfig.mk (some "/custom") (some "ep"))).2 "/custom" rfl (by decide)⟩
